import Mathlib

/-!
Verification of the Quorum Chrome extension (extension/src) and, where the
backend orchestration engine is concerned, of the consensus state machine
described by the project documentation.

Numbers handled by the JavaScript code are modelled as `Int` where the code
produces them via `parseInt` (agent counts, round counts) and as `ℚ` where
they are fractional (agreement ratios).  JavaScript objects that are only
read through key lookup are modelled as functions `String → Option JSValue`.
String primitives are modelled on the character list of the string so that
concrete instances evaluate by kernel reduction.
-/

namespace Quorum

/-- JavaScript `String.prototype.startsWith`, on the character list of the
string. -/
def jsStartsWith (s p : String) : Bool :=
  p.data.isPrefixOf s.data

/-- JavaScript `String.prototype.trim`: strip whitespace from both ends. -/
def jsTrim (s : String) : String :=
  String.mk (((s.data.dropWhile Char.isWhitespace).reverse.dropWhile Char.isWhitespace).reverse)

/-! ### extension/src/utils/storage.js -/

/-- Function `getProviderFromModel` from storage.js: prefix dispatch with a
silent default of "openai" for unknown prefixes. -/
def getProviderFromModel (model : String) : String :=
  if jsStartsWith model "openai:" then "openai"
  else if jsStartsWith model "anthropic:" then "anthropic"
  else if jsStartsWith model "gemini:" then "gemini"
  else "openai"

/-- Function `getTotalMixedAgents` from storage.js: `Object.values(configs).reduce((sum, count) =>
sum + (count || 0), 0)`.  The configs object is modelled as its ordered entry list;
`count || 0` is the identity on integers (`0 || 0` is `0`). -/
def getTotalMixedAgents (configs : List (String × Int)) : Int :=
  configs.foldl (fun sum p => sum + p.2) 0

/-- Function `getMixedModelsArray` from storage.js: keep exactly the entries
whose count is at least 1, as `{model, count}` pairs. -/
def getMixedModelsArray (configs : List (String × Int)) : List (String × Int) :=
  configs.filter (fun p => p.2 ≥ 1)

/-! ### extension/src/components/SettingsPanel.jsx -/

/-- The settings form state validated by `SettingsPanel.validate`. -/
structure SettingsForm where
  mixed_mode : Bool
  mixed_model_configs : List (String × Int)
  n_agents : Int
  model : String
  agreement_ratio : ℚ
  max_rounds : Int
  use_hosted_backend : Bool
  openai_api_key : String
  anthropic_api_key : String
  gemini_api_key : String
  backend_url : String
deriving DecidableEq

/-- The `newErrors` object built by `validate`; a `none` field means the field
key is absent from the object. -/
structure ValidationErrors where
  mixed_models : Option String := none
  n_agents : Option String := none
  model : Option String := none
  agreement_ratio : Option String := none
  max_rounds : Option String := none
  backend_url : Option String := none
  openai_api_key : Option String := none
  anthropic_api_key : Option String := none
  gemini_api_key : Option String := none
deriving DecidableEq

/-- The `providerNames` display map of SettingsPanel.jsx (total on the three
providers `getProviderFromModel` can return). -/
def providerDisplayName (provider : String) : String :=
  if provider = "openai" then "OpenAI"
  else if provider = "anthropic" then "Anthropic"
  else "Google Gemini"

/-- Lookup of the per-provider key field, `form[apiKeyField]` where
`apiKeyField` interpolates the provider name. -/
def formApiKey (form : SettingsForm) (provider : String) : String :=
  if provider = "openai" then form.openai_api_key
  else if provider = "anthropic" then form.anthropic_api_key
  else form.gemini_api_key

/-- The assignment `newErrors[apiKeyField] = msg`. -/
def setApiKeyError (e : ValidationErrors) (provider msg : String) : ValidationErrors :=
  if provider = "openai" then { e with openai_api_key := some msg }
  else if provider = "anthropic" then { e with anthropic_api_key := some msg }
  else { e with gemini_api_key := some msg }

/-- The check `validPrefixes.some((prefix) => form.model.startsWith(prefix))`
of `validate`. -/
def validModelFormat (model : String) : Bool :=
  ["openai:", "anthropic:", "gemini:"].any (fun p => jsStartsWith model p)

/-- Function `validate` from SettingsPanel.jsx (lines 53-116): builds the
`newErrors` object, assigning fields in source order.  The component accepts
the form exactly when the object is empty, i.e. when every field below is
`none`. -/
def validate (form : SettingsForm) : ValidationErrors :=
  let e0 : ValidationErrors := {}
  let e1 :=
    if form.mixed_mode then
      let total := getTotalMixedAgents form.mixed_model_configs
      let ea := if total < 1 then { e0 with mixed_models := some "Add at least 1 agent" } else e0
      let eb := if total > 10 then { ea with mixed_models := some "Maximum 10 agents total" } else ea
      if form.use_hosted_backend = false then
        let providersUsed :=
          (form.mixed_model_configs.filter (fun p => p.2 ≥ 1)).map (fun p => getProviderFromModel p.1)
        let ec :=
          if "openai" ∈ providersUsed ∧ formApiKey form "openai" = "" then
            setApiKeyError eb "openai" "OpenAI API key is required"
          else eb
        let ed :=
          if "anthropic" ∈ providersUsed ∧ formApiKey form "anthropic" = "" then
            setApiKeyError ec "anthropic" "Anthropic API key is required"
          else ec
        if "gemini" ∈ providersUsed ∧ formApiKey form "gemini" = "" then
          setApiKeyError ed "gemini" "Google Gemini API key is required"
        else ed
      else eb
    else
      let ea :=
        if form.n_agents < 1 ∨ form.n_agents > 10 then
          { e0 with n_agents := some "Must be between 1 and 10" }
        else e0
      let eb :=
        if validModelFormat form.model = false then
          { ea with model := some "Invalid model format" }
        else ea
      if form.use_hosted_backend = false then
        let provider := getProviderFromModel form.model
        if formApiKey form provider = "" then
          setApiKeyError eb provider
            (providerDisplayName provider ++ " API key is required for selected model")
        else eb
      else eb
  let e2 :=
    if form.agreement_ratio < 0 ∨ form.agreement_ratio > 1 then
      { e1 with agreement_ratio := some "Must be between 0 and 1" }
    else e1
  let e3 :=
    if form.max_rounds < 0 ∨ form.max_rounds > 5 then
      { e2 with max_rounds := some "Must be between 0 and 5" }
    else e2
  if form.use_hosted_backend = false ∧ form.backend_url = "" then
    { e3 with backend_url := some "Backend URL is required" }
  else e3

/-- Predicate for `validate` returning `true`: the error object is empty. -/
def validateAccepts (form : SettingsForm) : Prop :=
  validate form = {}

instance (form : SettingsForm) : Decidable (validateAccepts form) := by
  unfold validateAccepts; infer_instance

/-! ### extension/src/App.jsx (hosted-backend version) -/

/-- The slice of the stored settings that `App.handleAsk` reads. -/
structure AppSettings where
  mixed_mode : Bool
  mixed_model_configs : List (String × Int)
  n_agents : Int
  model : String
  agreement_ratio : ℚ
  max_rounds : Int
  return_agent_outputs : Bool
  debug_mode : Bool
deriving DecidableEq

/-- The JSON body `handleAsk` sends to `POST /ask`.  A `none` field is absent
from the body. -/
structure RequestBody where
  question : String
  agreement_ratio : ℚ
  max_rounds : Int
  return_agent_outputs : Bool
  mixed_models : Option (List (String × Int)) := none
  n_agents : Option Int := none
  model : Option String := none
  image : Option String := none
deriving DecidableEq

/-- Function `handleAsk` from App.jsx up to the point where the request is
handed to `askQuestion`: the two early-return error guards, then the
construction of the request body.  `Except.error` is a `setError(...); return`,
`Except.ok` is a request that is actually sent. -/
def handleAsk (settings : AppSettings) (question : String) (image : Option String) :
    Except String RequestBody :=
  if jsTrim question = "" ∧ image = none then
    Except.error "Please enter a question or paste an image"
  else
    let isMixedMode := settings.mixed_mode
    let mixedModels :=
      if isMixedMode then getMixedModelsArray settings.mixed_model_configs else []
    if isMixedMode = true ∧ mixedModels = [] then
      Except.error "Please add at least 1 agent in mixed model settings"
    else
      let base : RequestBody :=
        if isMixedMode then
          { question := jsTrim question
            agreement_ratio := settings.agreement_ratio
            max_rounds := settings.max_rounds
            return_agent_outputs := settings.return_agent_outputs || settings.debug_mode
            mixed_models := some mixedModels }
        else
          { question := jsTrim question
            n_agents := some settings.n_agents
            agreement_ratio := settings.agreement_ratio
            max_rounds := settings.max_rounds
            model := some settings.model
            return_agent_outputs := settings.return_agent_outputs || settings.debug_mode }
      Except.ok { base with image := image }

/-! ### extension/src/components/StatusBadge.jsx -/

/-- The badge label computed by `StatusBadge` from the result status string. -/
def statusLabel (status : String) : String :=
  let isConsensus := status = "consensus_reached"
  let isBestEffort := status = "best_effort"
  if isConsensus then "Consensus Reached"
  else if isBestEffort then "Best Effort"
  else "Processing"

/-! ### JSON values and the localStorage fallback of storage.js -/

/-- A JSON value, as stored by `JSON.stringify`/`JSON.parse` round trips of
plain settings data. -/
inductive JSValue where
  | str (s : String)
  | num (q : ℚ)
  | bool (b : Bool)
  | obj (fields : List (String × JSValue))

/-- A JavaScript object read through key lookup: `none` models an absent key. -/
def JSObj : Type := String → Option JSValue

/-- The spread `{...a, ...b}`: keys of `b` override keys of `a`. -/
def spread (a b : JSObj) : JSObj := fun k =>
  match b k with
  | some v => some v
  | none => a k

/-- The empty object. -/
def emptyObj : JSObj := fun _ => none

/-- Constant `DEFAULT_SETTINGS` from storage.js (lines 61-77). -/
def DEFAULT_SETTINGS : JSObj := fun k =>
  if k = "n_agents" then some (.num 3)
  else if k = "agreement_ratio" then some (.num (mkRat 67 100))
  else if k = "max_rounds" then some (.num 2)
  else if k = "model" then some (.str "openai:gpt-4.1-mini")
  else if k = "openai_api_key" then some (.str "")
  else if k = "anthropic_api_key" then some (.str "")
  else if k = "gemini_api_key" then some (.str "")
  else if k = "return_agent_outputs" then some (.bool false)
  else if k = "debug_mode" then some (.bool false)
  else if k = "backend_url" then some (.str "http://localhost:5000")
  else if k = "use_hosted_backend" then some (.bool true)
  else if k = "mixed_mode" then some (.bool false)
  else if k = "mixed_model_configs" then some (.obj [])
  else none

/-- The `quorum_settings` item of localStorage: `none` when the key was never
written; the stored JSON object otherwise (`JSON.parse ∘ JSON.stringify` is
the identity on plain settings objects). -/
def LocalStore : Type := Option JSObj

/-- Function `getSettings` from storage.js, localStorage fallback branch:
spread the stored object over the defaults, or return the defaults when
nothing is stored. -/
def getSettingsLS (store : LocalStore) : JSObj :=
  match store with
  | some stored => spread DEFAULT_SETTINGS stored
  | none => DEFAULT_SETTINGS

/-- Function `saveSettings` from storage.js, localStorage fallback branch:
merge the partial settings over the currently stored object (or the empty
object) and store the result. -/
def saveSettingsLS (settings : JSObj) (store : LocalStore) : LocalStore :=
  some (spread (match store with | some current => current | none => emptyObj) settings)

/-- Function `resetSettings` from storage.js: `saveSettings(DEFAULT_SETTINGS)`. -/
def resetSettingsLS (store : LocalStore) : LocalStore :=
  saveSettingsLS DEFAULT_SETTINGS store

/-! ### extension/src/utils/api.js -/

/-- What the network did for one `fetch` call: the promise rejected (network
failure), or a response arrived whose body is or is not valid JSON. -/
inductive FetchOutcome where
  | netError (msg : String)
  | respMalformed
  | respJson (v : JSValue)

/-- The settled state of the promise an async function returns. -/
inductive AsyncResult (α : Type) where
  | resolved (a : α)
  | rejected (msg : String)

/-- Function `validateApiKey` from api.js.  The `catch` turns a fetch
rejection into `{valid: false, error}`; but the body is returned as
`return response.json()` WITHOUT `await`, so when the body is not valid JSON
the rejection of the `json()` promise happens after `validateApiKey` has
already returned and escapes the `try`/`catch`: the returned promise
rejects. -/
def validateApiKey : FetchOutcome → AsyncResult JSValue
  | .netError m => .resolved (.obj [("valid", .bool false), ("error", .str m)])
  | .respMalformed => .rejected "Unexpected end of JSON input"
  | .respJson v => .resolved v

/-- Property access `data.status`: `none` models `undefined` (and the
`TypeError` thrown on `null`/non-object access, which the surrounding `catch`
absorbs the same way). -/
def lookupField (v : JSValue) (k : String) : Option JSValue :=
  match v with
  | .obj fields => fields.lookup k
  | _ => none

/-- The test `data.status === "ok"` of `checkBackendHealth`. -/
def statusIsOk (v : JSValue) : Bool :=
  match lookupField v "status" with
  | some (.str s) => s = "ok"
  | _ => false

/-- Function `checkBackendHealth` from api.js: here both the fetch and
`response.json()` are awaited inside the `try`, so every failure is caught and
becomes `false`. -/
def checkBackendHealth : FetchOutcome → AsyncResult Bool
  | .netError _ => .resolved false
  | .respMalformed => .resolved false
  | .respJson v => .resolved (statusIsOk v)

/-! ### The backend reconciliation controller

The Flask backend (backend/orchestration) is not part of the extension
sources; the controller below is modelled from the specification of the
Reconciliation Controller state machine. -/

/-- Terminal status of a request. -/
inductive FinalStatus where
  | consensus_reached
  | best_effort
deriving DecidableEq

/-- Decision taken after one round evaluation. -/
inductive RoundDecision where
  | CONSENSUS_REACHED
  | CONTINUE
  | BEST_EFFORT
deriving DecidableEq

/-- Modelled from the spec: the Reconciliation Controller transition rule
(backend/orchestration, absent from the sources).  After evaluating a round,
if `agreement_ratio_achieved ≥ threshold` transition to `CONSENSUS_REACHED`;
else if `round < max_rounds` transition to `CONTINUE`; else to
`BEST_EFFORT`. -/
def controllerStep (threshold ratio : ℚ) (round maxRounds : Nat) : RoundDecision :=
  if ratio ≥ threshold then .CONSENSUS_REACHED
  else if round < maxRounds then .CONTINUE
  else .BEST_EFFORT

/-- Modelled from the spec: the round loop of the Reconciliation Controller
(backend/orchestration, absent from the sources).  `ratios r` is the agreement
ratio the Arbiter Evaluator reports for round `r`; the first argument is fuel,
maintained as `maxRounds - round`, so a `CONTINUE` decision at fuel 0 cannot
occur and is mapped to `BEST_EFFORT`.  Returns the number of rounds executed
and the terminal status. -/
def runFrom (threshold : ℚ) (maxRounds : Nat) (ratios : Nat → ℚ) :
    Nat → Nat → Nat → Nat × FinalStatus
  | 0, round, executed =>
    if controllerStep threshold (ratios round) round maxRounds = .CONSENSUS_REACHED then
      (executed + 1, .consensus_reached)
    else (executed + 1, .best_effort)
  | fuel + 1, round, executed =>
    match controllerStep threshold (ratios round) round maxRounds with
    | .CONSENSUS_REACHED => (executed + 1, .consensus_reached)
    | .BEST_EFFORT => (executed + 1, .best_effort)
    | .CONTINUE => runFrom threshold maxRounds ratios fuel (round + 1) (executed + 1)

/-- Modelled from the spec: a whole request through the Reconciliation
Controller.  The initial round is 1, or 0 when `max_rounds` is configured as 0
(a single shot with no reconciliation). -/
def runConsensus (threshold : ℚ) (maxRounds : Nat) (ratios : Nat → ℚ) :
    Nat × FinalStatus :=
  let start := if maxRounds = 0 then 0 else 1
  runFrom threshold maxRounds ratios (maxRounds - start) start 0

/-! ### Concrete instances used by witnesses and counterexamples -/

/-- A form whose configured limits all hold but which uses a self-hosted
backend with no backend URL and no API key configured. -/
def c1Form : SettingsForm :=
  { mixed_mode := false
    mixed_model_configs := []
    n_agents := 3
    model := "openai:gpt-4.1-mini"
    agreement_ratio := mkRat 67 100
    max_rounds := 2
    use_hosted_backend := false
    openai_api_key := ""
    anthropic_api_key := ""
    gemini_api_key := ""
    backend_url := "" }

/-- A mixed-mode form whose per-model counts sum to 12, above the cap. -/
def c5Form : SettingsForm :=
  { c1Form with
    mixed_mode := true
    use_hosted_backend := true
    mixed_model_configs := [("openai:gpt-4.1-mini", 8), ("gemini:gemini-2.5-flash", 4)] }

/-- Single-model settings as `handleAsk` reads them. -/
def wSettings : AppSettings :=
  { mixed_mode := false, mixed_model_configs := [], n_agents := 3,
    model := "openai:gpt-4.1-mini", agreement_ratio := mkRat 67 100, max_rounds := 2,
    return_agent_outputs := false, debug_mode := false }

/-- The request body `handleAsk` builds from `wSettings`. -/
def wBody : RequestBody :=
  { question := "What is 2+2?", agreement_ratio := mkRat 67 100, max_rounds := 2,
    return_agent_outputs := false, n_agents := some 3,
    model := some "openai:gpt-4.1-mini" }

/-- Mixed-mode settings with an empty allocation. -/
def cexSettings : AppSettings :=
  { mixed_mode := true, mixed_model_configs := [], n_agents := 3,
    model := "openai:gpt-4.1-mini", agreement_ratio := mkRat 67 100, max_rounds := 2,
    return_agent_outputs := false, debug_mode := false }

/-- A partial settings object holding only a model override. -/
def wSaved : JSObj := fun k =>
  if k = "model" then some (.str "anthropic:claude-sonnet-4-5-20250929") else none

/-! ## Helper lemmas -/

theorem isPrefixOf_cons_head {c : Char} {t l : List Char}
    (h : List.isPrefixOf (c :: t) l = true) : ∃ r, l = c :: r := by
  cases l with
  | nil => simp [List.isPrefixOf] at h
  | cons a l =>
    simp [List.isPrefixOf] at h
    exact ⟨l, by rw [h.1]⟩

theorem isPrefixOf_disjoint {m : List Char} {c d : Char} {p q : List Char}
    (hcd : c ≠ d) (h : List.isPrefixOf (c :: p) m = true) :
    List.isPrefixOf (d :: q) m = false := by
  obtain ⟨r, hr⟩ := isPrefixOf_cons_head h
  subst hr
  simp [List.isPrefixOf, Ne.symm hcd]

theorem validate_eq_single_hosted (form : SettingsForm)
    (hm : form.mixed_mode = false) (hh : form.use_hosted_backend = true) :
    validate form =
      { n_agents :=
          if form.n_agents < 1 ∨ form.n_agents > 10 then some "Must be between 1 and 10"
          else none
        model :=
          if validModelFormat form.model = false then some "Invalid model format" else none
        agreement_ratio :=
          if form.agreement_ratio < 0 ∨ form.agreement_ratio > 1 then
            some "Must be between 0 and 1"
          else none
        max_rounds :=
          if form.max_rounds < 0 ∨ form.max_rounds > 5 then some "Must be between 0 and 5"
          else none } := by
  unfold validate
  rw [hm, hh]
  simp only [Bool.false_eq_true, Bool.true_eq_false, false_and, if_false]
  split_ifs <;> rfl

theorem foldl_add_snd (l : List (String × Int)) (a : Int) :
    l.foldl (fun sum p => sum + p.2) a = a + (l.map Prod.snd).sum := by
  induction l generalizing a with
  | nil => simp
  | cons p l ih => simp [ih, add_assoc]

theorem mixed_models_setApiKeyError (e : ValidationErrors) (p m : String) :
    (setApiKeyError e p m).mixed_models = e.mixed_models := by
  unfold setApiKeyError
  split_ifs <;> rfl

theorem validate_mixed_models_field (form : SettingsForm) (hm : form.mixed_mode = true) :
    (validate form).mixed_models =
      (if getTotalMixedAgents form.mixed_model_configs > 10 then some "Maximum 10 agents total"
       else if getTotalMixedAgents form.mixed_model_configs < 1 then some "Add at least 1 agent"
       else none) := by
  simp only [validate, hm, if_true]
  simp only [apply_ite ValidationErrors.mixed_models, mixed_models_setApiKeyError, ite_self]

/-! ## Claim theorems -/

/-- C1 (amended): for a single-model form that uses the hosted backend, the
settings validator accepts exactly when the configured limits hold (agents in
1..10, ratio in [0,1], rounds in 0..5, valid model prefix), and each violated
bound produces an error for exactly that field; with a self-hosted backend the
validator additionally requires a backend URL and the selected provider's API
key, so the acceptance is not equivalent to the limits alone. -/
theorem validate_single_hosted (form : SettingsForm)
    (hm : form.mixed_mode = false) (hh : form.use_hosted_backend = true) :
    (validateAccepts form ↔
      (1 ≤ form.n_agents ∧ form.n_agents ≤ 10 ∧
       validModelFormat form.model = true ∧
       0 ≤ form.agreement_ratio ∧ form.agreement_ratio ≤ 1 ∧
       0 ≤ form.max_rounds ∧ form.max_rounds ≤ 5)) ∧
    ((validate form).n_agents = none ↔ (1 ≤ form.n_agents ∧ form.n_agents ≤ 10)) ∧
    ((validate form).model = none ↔ validModelFormat form.model = true) ∧
    ((validate form).agreement_ratio = none ↔
      (0 ≤ form.agreement_ratio ∧ form.agreement_ratio ≤ 1)) ∧
    ((validate form).max_rounds = none ↔ (0 ≤ form.max_rounds ∧ form.max_rounds ≤ 5)) ∧
    (validate form).mixed_models = none ∧
    (validate form).backend_url = none ∧
    (validate form).openai_api_key = none ∧
    (validate form).anthropic_api_key = none ∧
    (validate form).gemini_api_key = none := by
  have he := validate_eq_single_hosted form hm hh
  unfold validateAccepts
  rw [he]
  refine ⟨?_, ?_, ?_, ?_, ?_, rfl, rfl, rfl, rfl, rfl⟩ <;>
    simp [ValidationErrors.mk.injEq, ite_eq_right_iff, not_or, not_lt, Bool.not_eq_false]
  all_goals tauto

/-- C1 counterexample to the claim as stated: `c1Form` satisfies every
configured limit, yet the validator rejects it (it is a single-model form on a
self-hosted backend with no backend URL and no API key). -/
theorem validate_single_hosted_cex :
    (1 ≤ c1Form.n_agents ∧ c1Form.n_agents ≤ 10 ∧
     validModelFormat c1Form.model = true ∧
     0 ≤ c1Form.agreement_ratio ∧ c1Form.agreement_ratio ≤ 1 ∧
     0 ≤ c1Form.max_rounds ∧ c1Form.max_rounds ≤ 5) ∧
    ¬ validateAccepts c1Form := by decide

/-- C1 witness: the same form with the hosted backend enabled is accepted. -/
theorem validate_single_hosted_w :
    validateAccepts { c1Form with use_hosted_backend := true } :=
  (validate_single_hosted _ rfl rfl).1.mpr (by decide)

/-- C2: an achieved agreement ratio greater than or equal to the threshold
always transitions the controller to `CONSENSUS_REACHED` (the comparison is
at least, not strictly greater), for every round number and round bound. -/
theorem consensus_at_threshold (threshold ratio : ℚ) (round maxRounds : Nat)
    (h : threshold ≤ ratio) :
    controllerStep threshold ratio round maxRounds = RoundDecision.CONSENSUS_REACHED := by
  unfold controllerStep
  rw [if_pos h]

/-- C2 witness: a ratio exactly equal to the threshold counts as reached. -/
theorem consensus_at_threshold_w :
    (mkRat 67 100 : ℚ) ≤ mkRat 67 100 ∧
      controllerStep (mkRat 67 100) (mkRat 67 100) 1 2 = RoundDecision.CONSENSUS_REACHED :=
  ⟨by decide, consensus_at_threshold _ _ 1 2 (by decide)⟩

/-- C3: with `max_rounds = 0` exactly one round executes for any achieved
ratios, and the status is `consensus_reached` when the single round's ratio is
at least the threshold and `best_effort` otherwise. -/
theorem max_rounds_zero (threshold : ℚ) (ratios : Nat → ℚ) :
    runConsensus threshold 0 ratios =
      (1, if threshold ≤ ratios 0 then FinalStatus.consensus_reached
          else FinalStatus.best_effort) := by
  by_cases h : threshold ≤ ratios 0 <;>
    simp [runConsensus, runFrom, controllerStep, h]

/-- C4: every request body `handleAsk` actually sends carries the
`mixed_models` field exactly when mixed mode is enabled and the
`n_agents`/`model` fields exactly when it is disabled; no body carries both
field groups or neither. -/
theorem handleAsk_mode_exclusive (s : AppSettings) (q : String) (img : Option String)
    (body : RequestBody) (h : handleAsk s q img = Except.ok body) :
    (body.mixed_models.isSome = true ↔ s.mixed_mode = true) ∧
    ((body.n_agents.isSome = true ∧ body.model.isSome = true) ↔ s.mixed_mode = false) ∧
    ¬(body.mixed_models.isSome = true ∧ body.n_agents.isSome = true) ∧
    (body.mixed_models.isSome = true ∨
      (body.n_agents.isSome = true ∧ body.model.isSome = true)) := by
  by_cases h1 : (jsTrim q = "" ∧ img = none) <;>
    by_cases h2 : getMixedModelsArray s.mixed_model_configs = [] <;>
    cases hm : s.mixed_mode <;>
    simp [handleAsk, hm, h1, h2] at h <;>
    subst h <;>
    simp [hm]

/-- C4 witness: a concrete single-model request carries `n_agents` and
`model`. -/
theorem handleAsk_mode_exclusive_w :
    wBody.n_agents.isSome = true ∧ wBody.model.isSome = true :=
  (handleAsk_mode_exclusive wSettings "What is 2+2?" none wBody rfl).2.1.mpr rfl

/-- C5: `getMixedModelsArray` keeps exactly the entries with count at least 1,
`getTotalMixedAgents` is the sum of all per-model counts, and a mixed-mode
form whose total is below 1 or above 10 is rejected by the validator. -/
theorem mixed_allocation :
    (∀ (configs : List (String × Int)) (m : String) (c : Int),
      (m, c) ∈ getMixedModelsArray configs ↔ ((m, c) ∈ configs ∧ 1 ≤ c)) ∧
    (∀ configs : List (String × Int),
      getTotalMixedAgents configs = (configs.map Prod.snd).sum) ∧
    (∀ form : SettingsForm, form.mixed_mode = true →
      (getTotalMixedAgents form.mixed_model_configs < 1 ∨
        10 < getTotalMixedAgents form.mixed_model_configs) →
      ¬ validateAccepts form) := by
  refine ⟨?_, ?_, ?_⟩
  · intro configs m c
    simp [getMixedModelsArray, List.mem_filter]
  · intro configs
    unfold getTotalMixedAgents
    rw [foldl_add_snd]
    simp
  · intro form hm htot hacc
    have h1 := validate_mixed_models_field form hm
    unfold validateAccepts at hacc
    rw [hacc] at h1
    rcases htot with h | h
    · rw [if_neg (by omega), if_pos h] at h1
      simp at h1
    · rw [if_pos h] at h1
      simp at h1

/-- C5 witness: a concrete 8+4 allocation is summed to 12 and rejected. -/
theorem mixed_allocation_w :
    ((("openai:gpt-4.1-mini", (8 : Int)) ∈
        getMixedModelsArray c5Form.mixed_model_configs) ↔
      (("openai:gpt-4.1-mini", (8 : Int)) ∈ c5Form.mixed_model_configs ∧ (1 : Int) ≤ 8)) ∧
    getTotalMixedAgents c5Form.mixed_model_configs =
      (c5Form.mixed_model_configs.map Prod.snd).sum ∧
    ¬ validateAccepts c5Form :=
  ⟨mixed_allocation.1 c5Form.mixed_model_configs "openai:gpt-4.1-mini" 8,
   mixed_allocation.2.1 c5Form.mixed_model_configs,
   mixed_allocation.2.2 c5Form rfl (by decide)⟩

/-- C6 (amended): `handleAsk` reports "Please enter a question or paste an
image" exactly when the trimmed question is empty and no image is attached;
when either is present the request passes that guard, but it may still be
refused by the later empty-mixed-allocation guard rather than always
proceeding. -/
theorem handleAsk_question_guard (s : AppSettings) (q : String) (img : Option String) :
    (handleAsk s q img = Except.error "Please enter a question or paste an image" ↔
      (jsTrim q = "" ∧ img = none)) ∧
    (¬(jsTrim q = "" ∧ img = none) →
      handleAsk s q img = Except.error "Please add at least 1 agent in mixed model settings" ∨
      ∃ body, handleAsk s q img = Except.ok body) := by
  have hne : ("Please add at least 1 agent in mixed model settings" : String) ≠
      "Please enter a question or paste an image" := by decide
  by_cases h1 : (jsTrim q = "" ∧ img = none) <;>
    by_cases h2 : getMixedModelsArray s.mixed_model_configs = [] <;>
    cases hm : s.mixed_mode <;>
    simp [handleAsk, hm, h1, h2, hne]

/-- C6 counterexample to the claim as stated: with a non-blank question, a
mixed-mode state with an empty allocation is still refused, so the presence of
a question does not imply the request proceeds. -/
theorem handleAsk_question_guard_cex :
    jsTrim "What is 2+2?" ≠ "" ∧
      handleAsk cexSettings "What is 2+2?" none =
        Except.error "Please add at least 1 agent in mixed model settings" :=
  ⟨by decide, rfl⟩

/-- C6 witness: an empty question with no image is refused with the
question-required error. -/
theorem handleAsk_question_guard_w :
    handleAsk cexSettings "" none =
      Except.error "Please enter a question or paste an image" :=
  (handleAsk_question_guard cexSettings "" none).1.mpr ⟨by decide, rfl⟩

/-- C7: the status badge labels a result "Consensus Reached" exactly when its
status is `consensus_reached`, "Best Effort" exactly when it is `best_effort`,
and any other status string gets the neutral "Processing" label. -/
theorem statusLabel_f (s : String) :
    (statusLabel s = "Consensus Reached" ↔ s = "consensus_reached") ∧
    (statusLabel s = "Best Effort" ↔ s = "best_effort") ∧
    (s ≠ "consensus_reached" → s ≠ "best_effort" → statusLabel s = "Processing") := by
  by_cases h1 : s = "consensus_reached"
  · subst h1; refine ⟨by simp [statusLabel], ?_, ?_⟩ <;> simp [statusLabel]
  · by_cases h2 : s = "best_effort"
    · subst h2; refine ⟨?_, by simp [statusLabel, h1], ?_⟩ <;> simp [statusLabel, h1]
    · refine ⟨?_, ?_, fun _ _ => by simp [statusLabel, h1, h2]⟩ <;>
        simp [statusLabel, h1, h2]

/-- C7 witness: the `best_effort` status is labelled "Best Effort". -/
theorem statusLabel_f_w :
    ("best_effort" : String) ≠ "consensus_reached" ∧
      statusLabel "best_effort" = "Best Effort" :=
  ⟨by decide, (statusLabel_f "best_effort").2.1.mpr rfl⟩

/-- C8: `getProviderFromModel` returns the matching provider for the three
known prefixes and silently returns the default provider "openai" for every
model identifier that starts with none of them. -/
theorem getProviderFromModel_sound (m : String) :
    (jsStartsWith m "openai:" = true → getProviderFromModel m = "openai") ∧
    (jsStartsWith m "anthropic:" = true → getProviderFromModel m = "anthropic") ∧
    (jsStartsWith m "gemini:" = true → getProviderFromModel m = "gemini") ∧
    (jsStartsWith m "openai:" = false → jsStartsWith m "anthropic:" = false →
      jsStartsWith m "gemini:" = false → getProviderFromModel m = "openai") := by
  refine ⟨?_, ?_, ?_, ?_⟩
  · intro h; unfold getProviderFromModel; rw [h]; rfl
  · intro h
    have h1 : jsStartsWith m "openai:" = false :=
      isPrefixOf_disjoint (show ('a' : Char) ≠ 'o' by decide) h
    unfold getProviderFromModel
    rw [h1, h]
    rfl
  · intro h
    have h1 : jsStartsWith m "openai:" = false :=
      isPrefixOf_disjoint (show ('g' : Char) ≠ 'o' by decide) h
    have h2 : jsStartsWith m "anthropic:" = false :=
      isPrefixOf_disjoint (show ('g' : Char) ≠ 'a' by decide) h
    unfold getProviderFromModel
    rw [h1, h2, h]
    rfl
  · intro h1 h2 h3
    unfold getProviderFromModel
    rw [h1, h2, h3]
    rfl

/-- C8 witness: an unknown-prefix model identifier falls back to "openai". -/
theorem getProviderFromModel_sound_w :
    jsStartsWith "mistral:large" "openai:" = false ∧
      getProviderFromModel "mistral:large" = "openai" :=
  ⟨by decide, (getProviderFromModel_sound "mistral:large").2.2.2
    (by decide) (by decide) (by decide)⟩

/-- C9: in the localStorage fallback path, saving then reading agrees with
the saved object on every saved key and with `DEFAULT_SETTINGS` on every
default key that was never saved, and reading after a reset yields
`DEFAULT_SETTINGS` on every default key. -/
theorem storage_roundtrip (s : JSObj) (store : LocalStore) (k : String) :
    ((s k).isSome = true → getSettingsLS (saveSettingsLS s store) k = s k) ∧
    (s k = none → (∀ st, store = some st → st k = none) →
      getSettingsLS (saveSettingsLS s store) k = DEFAULT_SETTINGS k) ∧
    ((DEFAULT_SETTINGS k).isSome = true →
      getSettingsLS (resetSettingsLS store) k = DEFAULT_SETTINGS k) := by
  refine ⟨?_, ?_, ?_⟩
  · intro h
    unfold getSettingsLS saveSettingsLS spread
    cases hs : s k with
    | none => rw [hs] at h; simp at h
    | some v => simp [hs]
  · intro hs hstore
    unfold getSettingsLS saveSettingsLS spread
    cases store with
    | none => simp [hs, emptyObj]
    | some st => simp [hs, hstore st rfl]
  · intro h
    unfold resetSettingsLS getSettingsLS saveSettingsLS spread
    cases hd : DEFAULT_SETTINGS k with
    | none => rw [hd] at h; simp at h
    | some v => cases store <;> simp [hd]

/-- C9 witness: round trip of a saved model key, default recovery of an
unsaved key, and reset recovery of an overridden key. -/
theorem storage_roundtrip_w :
    getSettingsLS (saveSettingsLS wSaved none) "model" = wSaved "model" ∧
    getSettingsLS (saveSettingsLS wSaved none) "n_agents" = DEFAULT_SETTINGS "n_agents" ∧
    getSettingsLS (resetSettingsLS (saveSettingsLS wSaved none)) "model" =
      DEFAULT_SETTINGS "model" :=
  ⟨(storage_roundtrip wSaved none "model").1 rfl,
   (storage_roundtrip wSaved none "n_agents").2.1 rfl (fun _st hst => Option.noConfusion hst),
   (storage_roundtrip wSaved (saveSettingsLS wSaved none) "model").2.2 rfl⟩

/-- C10 (amended): `validateApiKey` resolves to `{valid: false, error}` on
network failure and rejects exactly when the response body is unparsable JSON
(the `json()` promise is returned without `await` and its rejection escapes
the `try`/`catch`); `checkBackendHealth` always resolves, and resolves to
`true` exactly when the parsed body has status "ok". -/
theorem api_total (o : FetchOutcome) :
    (∀ m, o = FetchOutcome.netError m →
      validateApiKey o =
        AsyncResult.resolved (.obj [("valid", .bool false), ("error", .str m)])) ∧
    ((∃ m, validateApiKey o = AsyncResult.rejected m) ↔ o = FetchOutcome.respMalformed) ∧
    (∃ b, checkBackendHealth o = AsyncResult.resolved b) ∧
    (checkBackendHealth o = AsyncResult.resolved true ↔
      ∃ v, o = FetchOutcome.respJson v ∧ statusIsOk v = true) := by
  cases o <;> simp [validateApiKey, checkBackendHealth]

/-- C10 witness: a network failure resolves to `{valid: false, error}`. -/
theorem api_total_w :
    validateApiKey (FetchOutcome.netError "Failed to fetch") =
      AsyncResult.resolved (.obj [("valid", .bool false), ("error", .str "Failed to fetch")]) :=
  (api_total (FetchOutcome.netError "Failed to fetch")).1 "Failed to fetch" rfl

/-- C10 counterexample to the claim as stated: on an unparsable response body
`validateApiKey` rejects instead of resolving to `{valid: false, error}`. -/
theorem api_cex :
    validateApiKey FetchOutcome.respMalformed =
      AsyncResult.rejected "Unexpected end of JSON input" := rfl

end Quorum
